import Mathlib

/-!
Verification of the turret-client message protocol (`turret_client/msgs.py`)
and the acknowledgment handling of the client session
(`turret_client/client.py`).

Modelling conventions:
* Python runtime values that can appear in a message field or on the wire
  are the inductive `PyVal`.  Python `float` is modelled as an exact
  rational (`ℚ`): the code performs no floating-point arithmetic, only
  `float(int)` coercion and equality on values carried verbatim, so the
  idealisation is exact for every value the protocol manipulates.
* Python exceptions are the inductive `PyError`; fallible code returns
  `Except PyError α`.  `MsgTypeError`, `MsgDataError` and `DecodeError`
  are the exception classes declared in `msgs.py`; `typeError` and
  `valueError` are the Python builtins raised by `_check_int` and
  `encode`; `unpackError` stands for the exception the external
  `msgpack` library raises when the bytes do not deserialize at all
  (for example the byte `0xc1`, which is not valid msgpack).
* The byte level is quotiented by msgpack semantics: `Wire.packed v` is
  any byte string that `msgpack.unpackb` turns into the value `v`, and
  `Wire.malformed` is any byte string on which `msgpack.unpackb` raises.
  `msgpack.packb` always yields decodable bytes, so `packb` produces
  `Wire.packed`.  `decode` in the source calls `msgpack.unpackb(bs)`
  twice; `unpackb` is deterministic, so the model unpacks once and uses
  the value in both places.
-/

namespace TurretClient

/-- A Python runtime value (restricted to the msgpack-serialisable values
the protocol manipulates).  `float` carries an exact rational. -/
inductive PyVal where
  | int (n : ℤ)
  | float (q : ℚ)
  | str (s : String)
  | nil
  | list (xs : List PyVal)
  | dict (entries : List (String × PyVal))

/-- A Python dictionary with string keys, as produced by `msgpack.unpackb`
(`strict_map_key` is the default) and by every `to_dict`. -/
abbrev PyDict := List (String × PyVal)

/-- Exceptions raised by the code under verification. -/
inductive PyError where
  | msgTypeError (msg : String)
  | msgDataError (msg : String)
  | decodeError (msg : String)
  | typeError (msg : String)
  | valueError (msg : String)
  | unpackError

/-- Is this exception a `MsgTypeError`? -/
def PyError.isMsgTypeError : PyError → Bool
  | .msgTypeError _ => true
  | _ => false

/-- Is this exception a `MsgDataError`? -/
def PyError.isMsgDataError : PyError → Bool
  | .msgDataError _ => true
  | _ => false

/-- Is this exception a `DecodeError`? -/
def PyError.isDecodeError : PyError → Bool
  | .decodeError _ => true
  | _ => false

/-- Is this exception a `ValueError`? -/
def PyError.isValueError : PyError → Bool
  | .valueError _ => true
  | _ => false

/-- The Python type tags `_get_msg_data` can be directed at
(the type variable `T = TypeVar("T", int, float, str)`). -/
inductive DType where
  | int
  | float
  | str

/-- Rendering of a `DType` used in error messages. -/
def DType.name : DType → String
  | .int => "int"
  | .float => "float"
  | .str => "str"

/-- Python `isinstance(v, T)` for the three `DType`s: an `int` is never an
instance of `float` and vice versa. -/
def PyVal.isinstance : PyVal → DType → Bool
  | .int _, .int => true
  | .float _, .float => true
  | .str _, .str => true
  | _, _ => false

/-- The Python type name of a value, used in error messages. -/
def PyVal.typeName : PyVal → String
  | .int _ => "int"
  | .float _ => "float"
  | .str _ => "str"
  | .nil => "NoneType"
  | .list _ => "list"
  | .dict _ => "dict"

/-- Rendering of a value inside an f-string (used only in error
messages). -/
def PyVal.pystr : PyVal → String
  | .int n => toString n
  | .float q => toString q
  | .str s => s
  | .nil => "None"
  | .list _ => "list"
  | .dict _ => "dict"

/-- Python dictionary lookup `d[k]` (`none` models a `KeyError`). -/
def dictGet (d : PyDict) (k : String) : Option PyVal :=
  (d.find? (fun p => p.fst == k)).map Prod.snd

/-- `_check_msg_type(msg, expected)`: raises `MsgTypeError` when the
`"type"` key is absent or its value differs from `expected`. -/
def check_msg_type (msg : PyDict) (expected : String) : Except PyError Unit :=
  match dictGet msg "type" with
  | none => .error (.msgTypeError "No message type provided")
  | some msg_type =>
    match msg_type with
    | .str s =>
      if s = expected then .ok ()
      else .error (.msgTypeError
        ("Expected message type [" ++ expected ++ "], got [" ++ s ++ "]"))
    | other => .error (.msgTypeError
        ("Expected message type [" ++ expected ++ "], got ["
          ++ other.pystr ++ "]"))

/-- `_get_msg_data(msg, name, data_type)`: raises `MsgDataError` when the
key is absent or its value is not an instance of `data_type`. -/
def get_msg_data (msg : PyDict) (name : String) (data_type : DType) :
    Except PyError PyVal :=
  match dictGet msg name with
  | none => .error (.msgDataError ("Missing [" ++ name ++ "] in msg"))
  | some msg_data =>
    if msg_data.isinstance data_type then .ok msg_data
    else .error (.msgDataError
      ("[" ++ name ++ "] must be type [" ++ data_type.name ++ "], got ["
        ++ msg_data.typeName ++ "]"))

/-- `_check_int(value, name, lb)`: `TypeError` when the value is not an
`int`, `ValueError` when a lower bound is given and the value is below
it. -/
def check_int (value : PyVal) (name : String) (lb : Option ℤ) :
    Except PyError Unit :=
  match value with
  | .int n =>
    match lb with
    | some l =>
      if n < l then
        .error (.valueError (name ++ " must be greater than " ++ toString l))
      else .ok ()
    | none => .ok ()
  | _ => .error (.typeError (name ++ " must be an integer"))

/-- `MoveMsg`: a dataclass with two (dynamically typed) fields and no
`__post_init__`. -/
structure MoveMsg where
  base_angle : PyVal
  elev_angle : PyVal

/-- `MoveMsg(base_angle, elev_angle)`: the generated dataclass
constructor performs no validation. -/
def MoveMsg.make (base_angle elev_angle : PyVal) : MoveMsg :=
  ⟨base_angle, elev_angle⟩

/-- `MoveMsg.to_dict`. -/
def MoveMsg.to_dict (m : MoveMsg) : PyDict :=
  [("type", .str "move"),
   ("base_angle", m.base_angle),
   ("elev_angle", m.elev_angle)]

/-- `MoveMsg.from_dict`. -/
def MoveMsg.from_dict (d : PyDict) : Except PyError MoveMsg := do
  check_msg_type d "move"
  let base_angle ← get_msg_data d "base_angle" .float
  let elev_angle ← get_msg_data d "elev_angle" .float
  pure (MoveMsg.make base_angle elev_angle)

/-- `ShootMsg`: a dataclass with one field, validated by
`__post_init__`. -/
structure ShootMsg where
  times : PyVal

/-- `ShootMsg(times)`: runs `__post_init__`, i.e.
`_check_int(times, "times", 0)`. -/
def ShootMsg.make (times : PyVal) : Except PyError ShootMsg := do
  check_int times "times" (some 0)
  pure ⟨times⟩

/-- `ShootMsg.to_dict`. -/
def ShootMsg.to_dict (m : ShootMsg) : PyDict :=
  [("type", .str "shoot"), ("times", m.times)]

/-- `ShootMsg.from_dict` (the final `cls(times)` re-runs
`__post_init__`). -/
def ShootMsg.from_dict (d : PyDict) : Except PyError ShootMsg := do
  check_msg_type d "shoot"
  let times ← get_msg_data d "times" .int
  ShootMsg.make times

/-- `AckMsg`: no fields. -/
structure AckMsg where

/-- `AckMsg.to_dict`. -/
def AckMsg.to_dict (_ : AckMsg) : PyDict :=
  [("type", .str "acknowledge")]

/-- `AckMsg.from_dict`. -/
def AckMsg.from_dict (d : PyDict) : Except PyError AckMsg := do
  check_msg_type d "acknowledge"
  pure ⟨⟩

/-- `DiscoverMsg`: no fields. -/
structure DiscoverMsg where

/-- `DiscoverMsg.to_dict`. -/
def DiscoverMsg.to_dict (_ : DiscoverMsg) : PyDict :=
  [("type", .str "discover")]

/-- `DiscoverMsg.from_dict`. -/
def DiscoverMsg.from_dict (d : PyDict) : Except PyError DiscoverMsg := do
  check_msg_type d "discover"
  pure ⟨⟩

/-- `AddrMsg`: a dataclass with one field, validated by
`__post_init__`. -/
structure AddrMsg where
  port : PyVal

/-- `AddrMsg(port)`: runs `__post_init__`, i.e.
`_check_int(port, "port", 1)`. -/
def AddrMsg.make (port : PyVal) : Except PyError AddrMsg := do
  check_int port "port" (some 1)
  pure ⟨port⟩

/-- `AddrMsg.to_dict`. -/
def AddrMsg.to_dict (m : AddrMsg) : PyDict :=
  [("type", .str "address"), ("port", m.port)]

/-- `AddrMsg.from_dict` (the final `cls(port)` re-runs
`__post_init__`). -/
def AddrMsg.from_dict (d : PyDict) : Except PyError AddrMsg := do
  check_msg_type d "address"
  let port ← get_msg_data d "port" .int
  AddrMsg.make port

/-- `RequestStatusMsg`: no fields. -/
structure RequestStatusMsg where

/-- `RequestStatusMsg.to_dict`. -/
def RequestStatusMsg.to_dict (_ : RequestStatusMsg) : PyDict :=
  [("type", .str "statusrequest")]

/-- `RequestStatusMsg.from_dict`. -/
def RequestStatusMsg.from_dict (d : PyDict) :
    Except PyError RequestStatusMsg := do
  check_msg_type d "statusrequest"
  pure ⟨⟩

/-- `StatusMsg`: a dataclass with three fields, coerced and validated by
`__post_init__`. -/
structure StatusMsg where
  base_angle : PyVal
  elev_angle : PyVal
  shots : PyVal

/-- Number of halvings needed to bring `a` below `2 ^ 53` (the first
argument is structural fuel; any fuel of at least `Nat.log2 a` steps
suffices, and the callers pass `a` itself). -/
def doubleShift : ℕ → ℕ → ℕ
  | 0, _ => 0
  | fuel + 1, a => if a < 2 ^ 53 then 0 else doubleShift fuel (a / 2) + 1

/-- Python `float(n)` for an integer `n`: IEEE-754 double rounding of
`n` to a 53-bit significand (round to nearest, ties to even), returned
as the exact rational value of the resulting double.  Integers of
magnitude at most `2 ^ 53` convert exactly; larger ones are rounded,
e.g. `float(2 ** 53 + 1) = 2 ** 53`.  (Python raises `OverflowError`
from `2 ** 1024` on; no statement in this file evaluates the conversion
at such inputs.) -/
def floatOfInt (n : ℤ) : ℚ :=
  let a := n.natAbs
  let s := doubleShift a a
  let p := 2 ^ s
  let q := a / p
  let r := a % p
  let m :=
    if 2 * r < p then q
    else if p < 2 * r then q + 1
    else if q % 2 = 0 then q else q + 1
  (n.sign : ℚ) * ((m : ℚ) * (p : ℚ))

/-- Python `float(n)` applied when `__post_init__` finds an `int`
angle, as a `PyVal`. -/
def pyFloatOfInt (n : ℤ) : PyVal :=
  .float (floatOfInt n)

/-- `StatusMsg(base_angle, elev_angle, shots)`: `__post_init__` coerces
each `int` angle to `float`, raises `TypeError` for non-float angles,
then runs `_check_int(shots, "shots", 0)`. -/
def StatusMsg.make (base_angle elev_angle shots : PyVal) :
    Except PyError StatusMsg := do
  let base_angle :=
    match base_angle with
    | .int n => pyFloatOfInt n
    | other => other
  if !(base_angle.isinstance .float) then
    throw (.typeError "base angle must be a float")
  let elev_angle :=
    match elev_angle with
    | .int n => pyFloatOfInt n
    | other => other
  if !(elev_angle.isinstance .float) then
    throw (.typeError "elev angle must be a float")
  check_int shots "shots" (some 0)
  pure ⟨base_angle, elev_angle, shots⟩

/-- `StatusMsg.to_dict`: note the wire key `"elevation_angle"` for the
in-memory field `elev_angle`. -/
def StatusMsg.to_dict (m : StatusMsg) : PyDict :=
  [("type", .str "status"),
   ("base_angle", m.base_angle),
   ("elevation_angle", m.elev_angle),
   ("shots", m.shots)]

/-- `StatusMsg.from_dict` (the final `cls(...)` re-runs
`__post_init__`). -/
def StatusMsg.from_dict (d : PyDict) : Except PyError StatusMsg := do
  check_msg_type d "status"
  let base_angle ← get_msg_data d "base_angle" .float
  let elev_angle ← get_msg_data d "elevation_angle" .float
  let shots ← get_msg_data d "shots" .int
  StatusMsg.make base_angle elev_angle shots

/-- `ResetMsg`: no fields. -/
structure ResetMsg where

/-- `ResetMsg.to_dict`. -/
def ResetMsg.to_dict (_ : ResetMsg) : PyDict :=
  [("type", .str "reset")]

/-- `ResetMsg.from_dict`. -/
def ResetMsg.from_dict (d : PyDict) : Except PyError ResetMsg := do
  check_msg_type d "reset"
  pure ⟨⟩

/-- An instance of the abstract class `Msg`: the closed union of the
eight concrete message classes. -/
inductive Msg where
  | move (m : MoveMsg)
  | shoot (m : ShootMsg)
  | ack (m : AckMsg)
  | discover (m : DiscoverMsg)
  | addr (m : AddrMsg)
  | requestStatus (m : RequestStatusMsg)
  | status (m : StatusMsg)
  | reset (m : ResetMsg)

/-- Virtual dispatch of `to_dict` on a `Msg`. -/
def Msg.to_dict : Msg → PyDict
  | .move m => m.to_dict
  | .shoot m => m.to_dict
  | .ack m => m.to_dict
  | .discover m => m.to_dict
  | .addr m => m.to_dict
  | .requestStatus m => m.to_dict
  | .status m => m.to_dict
  | .reset m => m.to_dict

/-- The class object passed to `decode` as its `msg_type` argument. -/
inductive MsgType where
  | move
  | shoot
  | ack
  | discover
  | addr
  | requestStatus
  | status
  | reset
  deriving DecidableEq

/-- The wire tag each variant writes and expects. -/
def MsgType.tag : MsgType → String
  | .move => "move"
  | .shoot => "shoot"
  | .ack => "acknowledge"
  | .discover => "discover"
  | .addr => "address"
  | .requestStatus => "statusrequest"
  | .status => "status"
  | .reset => "reset"

/-- The class of a message instance. -/
def Msg.type : Msg → MsgType
  | .move _ => .move
  | .shoot _ => .shoot
  | .ack _ => .ack
  | .discover _ => .discover
  | .addr _ => .addr
  | .requestStatus _ => .requestStatus
  | .status _ => .status
  | .reset _ => .reset

/-- `msg_type.from_dict(d)` for each class, injected into the union. -/
def MsgType.from_dict : MsgType → PyDict → Except PyError Msg
  | .move, d => (MoveMsg.from_dict d).map Msg.move
  | .shoot, d => (ShootMsg.from_dict d).map Msg.shoot
  | .ack, d => (AckMsg.from_dict d).map Msg.ack
  | .discover, d => (DiscoverMsg.from_dict d).map Msg.discover
  | .addr, d => (AddrMsg.from_dict d).map Msg.addr
  | .requestStatus, d =>
    (RequestStatusMsg.from_dict d).map Msg.requestStatus
  | .status, d => (StatusMsg.from_dict d).map Msg.status
  | .reset, d => (ResetMsg.from_dict d).map Msg.reset

/-- A msgpack byte string, quotiented by deserialisation: `packed v` is
any byte string unpacking to `v`, `malformed` any byte string on which
`msgpack.unpackb` raises (e.g. `b"\xc1"`). -/
inductive Wire where
  | packed (v : PyVal)
  | malformed

/-- `msgpack.packb`. -/
def packb (v : PyVal) : Wire :=
  .packed v

/-- `msgpack.unpackb`: raises the library error on malformed bytes. -/
def unpackb : Wire → Except PyError PyVal
  | .packed v => .ok v
  | .malformed => .error .unpackError

/-- A Python object handed to `encode`: either a `Msg` instance or any
other value. -/
inductive PyObj where
  | msg (m : Msg)
  | val (v : PyVal)

/-- `encode(msg)`: `TypeError` unless the argument is a `Msg`, otherwise
`msgpack.packb(msg.to_dict())`. -/
def encode : PyObj → Except PyError Wire
  | .msg m => .ok (packb (.dict m.to_dict))
  | .val v => .error (.typeError
      ("Can only encode values of type Msg, not [" ++ v.typeName ++ "]"))

/-- `decode(bs, msg_type)`: unpacks the bytes, raises `DecodeError` when
the result is not a dictionary, otherwise delegates to
`msg_type.from_dict` (the source unpacks the same bytes twice; `unpackb`
is deterministic, so the single unpacked value is used in both
places). -/
def decode (bs : Wire) (msg_type : MsgType) : Except PyError Msg := do
  let msg_data ← unpackb bs
  match msg_data with
  | .dict d => msg_type.from_dict d
  | _ => throw (.decodeError "message did not unpack into dictionary")

/-- The documented field constraints of each variant (§3 of the spec):
`Move` and `Status` angles are floats, `Shoot.times ≥ 0`,
`Address.port ≥ 1`, `Status.shots ≥ 0`. -/
def Msg.wellFormed : Msg → Bool
  | .move m =>
    m.base_angle.isinstance .float && m.elev_angle.isinstance .float
  | .shoot m =>
    match m.times with
    | .int n => decide (0 ≤ n)
    | _ => false
  | .addr m =>
    match m.port with
    | .int n => decide (1 ≤ n)
    | _ => false
  | .status m =>
    m.base_angle.isinstance .float && m.elev_angle.isinstance .float &&
      (match m.shots with
       | .int n => decide (0 ≤ n)
       | _ => false)
  | _ => true

/-- Python `isinstance(v, dict)`, as used by `decode`. -/
def PyVal.isDict : PyVal → Bool
  | .dict _ => true
  | _ => false

/-- The required fields each variant's `from_dict` extracts via
`_get_msg_data`, in extraction order (read off the `from_dict`
bodies). -/
def MsgType.fields : MsgType → List (String × DType)
  | .move => [("base_angle", .float), ("elev_angle", .float)]
  | .shoot => [("times", .int)]
  | .addr => [("port", .int)]
  | .status =>
    [("base_angle", .float), ("elevation_angle", .float), ("shots", .int)]
  | _ => []

/-- The reply-handling phase of `TurretClient.move`, as a function of the
bytes read from the socket: the bare `except:` catches every exception
`decode` raises, so the phase is a total function returning the list of
warnings emitted. -/
def move_ack_phase (resp_bytes : Wire) : List String :=
  match decode resp_bytes MsgType.ack with
  | .ok _ => []
  | .error _ => ["Ack message not recieved after sending move command"]

/-- The reply-handling phase of `TurretClient.shoot`, likewise. -/
def shoot_ack_phase (resp_bytes : Wire) : List String :=
  match decode resp_bytes MsgType.ack with
  | .ok _ => []
  | .error _ => ["Ack message not recieved after sending shoot command"]

/-- Modelled from the spec: the sequential field-extraction step of
`from_map` — "extracts and type-checks each required field" via
`_get_msg_data`, in order.  Used to state and prove that every
`from_dict` factors through it. -/
def specExtract (d : PyDict) :
    List (String × DType) → Except PyError (List PyVal)
  | [] => .ok []
  | (name, dt) :: rest => do
    let v ← get_msg_data d name dt
    let vs ← specExtract d rest
    pure (v :: vs)

/-- The constructor call closing each `from_dict` (`cls(...)`, which
re-runs `__post_init__`), applied to the extracted field list.  The
final catch-all arm is unreachable: it is only ever applied to lists
whose length matches `MsgType.fields`. -/
def MsgType.build : MsgType → List PyVal → Except PyError Msg
  | .move, [b, e] => pure (.move (MoveMsg.make b e))
  | .shoot, [t] => (ShootMsg.make t).map .shoot
  | .addr, [p] => (AddrMsg.make p).map .addr
  | .status, [b, e, s] => (StatusMsg.make b e s).map .status
  | .ack, [] => pure (.ack ⟨⟩)
  | .discover, [] => pure (.discover ⟨⟩)
  | .requestStatus, [] => pure (.requestStatus ⟨⟩)
  | .reset, [] => pure (.reset ⟨⟩)
  | _, _ => .error .unpackError

/-! ## Helper lemmas -/

theorem except_bind_ok_iff {α β : Type} (e : Except PyError α)
    (f : α → Except PyError β) (b : β) :
    (e >>= f) = .ok b ↔ ∃ a, e = .ok a ∧ f a = .ok b := by
  cases e <;> simp [Bind.bind, Except.bind]

theorem except_bind_error_iff {α β : Type} (e : Except PyError α)
    (f : α → Except PyError β) (err : PyError) :
    (e >>= f) = .error err ↔
      e = .error err ∨ ∃ a, e = .ok a ∧ f a = .error err := by
  cases e <;> simp [Bind.bind, Except.bind]

theorem except_map_ok_iff {α β : Type} (g : α → β) (e : Except PyError α)
    (b : β) :
    (Except.map g e) = .ok b ↔ ∃ a, e = .ok a ∧ g a = b := by
  cases e <;> simp [Except.map]

theorem except_map_error_iff {α β : Type} (g : α → β) (e : Except PyError α)
    (err : PyError) :
    (Except.map g e) = .error err ↔ e = .error err := by
  cases e <;> simp [Except.map]

theorem check_msg_type_ok_iff (d : PyDict) (expected : String) :
    check_msg_type d expected = .ok () ↔
      dictGet d "type" = some (.str expected) := by
  unfold check_msg_type
  cases h : dictGet d "type" with
  | none => simp
  | some v =>
    cases v with
    | str s =>
      by_cases hse : s = expected
      · subst hse; simp
      · simp [hse]
    | int n => simp
    | float q => simp
    | nil => simp
    | list xs => simp
    | dict es => simp

theorem check_msg_type_error_shape (d : PyDict) (expected : String)
    (e : PyError) (h : check_msg_type d expected = .error e) :
    e.isMsgTypeError = true := by
  unfold check_msg_type at h
  cases hd : dictGet d "type" with
  | none => rw [hd] at h; cases h; rfl
  | some v =>
    rw [hd] at h
    cases v <;> first
      | (cases h; rfl)
      | (rename_i s
         by_cases hse : s = expected
         · simp [hse] at h
         · simp [hse] at h; cases h.symm; rfl)

theorem check_msg_type_fails (d : PyDict) (expected : String)
    (h : dictGet d "type" ≠ some (.str expected)) :
    ∃ s, check_msg_type d expected = .error (.msgTypeError s) := by
  unfold check_msg_type
  cases hd : dictGet d "type" with
  | none => exact ⟨_, rfl⟩
  | some v =>
    cases v <;> try exact ⟨_, rfl⟩
    rename_i s
    have hse : s ≠ expected := by
      intro hs
      exact h (by rw [hd, hs])
    simp [hse]

theorem get_msg_data_ok_iff (d : PyDict) (name : String) (dt : DType)
    (v : PyVal) :
    get_msg_data d name dt = .ok v ↔
      dictGet d name = some v ∧ v.isinstance dt = true := by
  unfold get_msg_data
  cases h : dictGet d name with
  | none => simp
  | some w =>
    by_cases hw : w.isinstance dt = true
    · simp [hw]
      intro hv
      subst hv
      exact hw
    · have hw2 : w.isinstance dt = false := by simpa using hw
      simp [hw2]
      intro hv
      subst hv
      exact hw2

theorem get_msg_data_error_iff (d : PyDict) (name : String) (dt : DType)
    (e : PyError) :
    get_msg_data d name dt = .error e ↔
      ((dictGet d name = none ∧
          e = .msgDataError ("Missing [" ++ name ++ "] in msg")) ∨
       (∃ v, dictGet d name = some v ∧ v.isinstance dt = false ∧
          e = .msgDataError
            ("[" ++ name ++ "] must be type [" ++ dt.name ++ "], got ["
              ++ v.typeName ++ "]"))) := by
  unfold get_msg_data
  cases h : dictGet d name with
  | none =>
    simp
    exact eq_comm
  | some w =>
    by_cases hw : w.isinstance dt = true
    · simp [hw]
    · have hw2 : w.isinstance dt = false := by simpa using hw
      simp [hw2]
      exact eq_comm

theorem check_int_ok_iff (v : PyVal) (name : String) (l : ℤ) :
    check_int v name (some l) = .ok () ↔ ∃ n, v = .int n ∧ l ≤ n := by
  unfold check_int
  cases v with
  | int n =>
    by_cases hn : n < l
    · simp [hn]
    · simp [hn]
      omega
  | float q => simp
  | str s => simp
  | nil => simp
  | list xs => simp
  | dict es => simp

theorem check_int_error_shape (v : PyVal) (name : String) (lb : Option ℤ)
    (e : PyError) (h : check_int v name lb = .error e) :
    e.isMsgTypeError = false ∧ e.isMsgDataError = false := by
  unfold check_int at h
  cases v <;> try (cases h; exact ⟨rfl, rfl⟩)
  rename_i n
  cases lb with
  | none => cases h
  | some l =>
    by_cases hn : n < l
    · simp [hn] at h; cases h.symm; exact ⟨rfl, rfl⟩
    · simp [hn] at h

theorem except_pure_ne_error {α : Type} (a : α) (e : PyError) :
    (pure a : Except PyError α) ≠ .error e := by
  simp [Pure.pure, Except.pure]

theorem isMsgDataError_exists (e : PyError) (h : e.isMsgDataError = true) :
    ∃ s, e = .msgDataError s := by
  cases e <;> simp [PyError.isMsgDataError] at h ⊢

theorem shootMsg_make_error_shape (v : PyVal) (e : PyError)
    (h : ShootMsg.make v = .error e) :
    e.isMsgTypeError = false ∧ e.isMsgDataError = false := by
  rw [ShootMsg.make, except_bind_error_iff] at h
  rcases h with h | ⟨a, _, hb⟩
  · exact check_int_error_shape _ _ _ _ h
  · exact absurd hb (except_pure_ne_error _ _)

theorem addrMsg_make_error_shape (v : PyVal) (e : PyError)
    (h : AddrMsg.make v = .error e) :
    e.isMsgTypeError = false ∧ e.isMsgDataError = false := by
  rw [AddrMsg.make, except_bind_error_iff] at h
  rcases h with h | ⟨a, _, hb⟩
  · exact check_int_error_shape _ _ _ _ h
  · exact absurd hb (except_pure_ne_error _ _)

theorem statusMsg_make_error_shape (b e0 s : PyVal) (e : PyError)
    (h : StatusMsg.make b e0 s = .error e) :
    e.isMsgTypeError = false ∧ e.isMsgDataError = false := by
  cases b <;> cases e0 <;> cases s <;>
    simp [StatusMsg.make, check_int, pyFloatOfInt, PyVal.isinstance,
      Bind.bind, Except.bind, Pure.pure, Except.pure] at h <;>
    first
      | (subst h; exact ⟨rfl, rfl⟩)
      | (rename_i n
         by_cases hn : n < 0
         · simp [hn] at h
           subst h
           exact ⟨rfl, rfl⟩
         · simp [hn] at h)

theorem shootMsg_make_ok_chars (v : PyVal) (mm : ShootMsg)
    (h : ShootMsg.make v = .ok mm) :
    mm.times = v ∧ ∃ n, v = .int n ∧ 0 ≤ n := by
  rw [ShootMsg.make, except_bind_ok_iff] at h
  obtain ⟨a, ha, hb⟩ := h
  obtain ⟨⟩ := a
  rw [check_int_ok_iff] at ha
  simp [Pure.pure, Except.pure] at hb
  exact ⟨by rw [← hb], ha⟩

theorem addrMsg_make_ok_chars (v : PyVal) (mm : AddrMsg)
    (h : AddrMsg.make v = .ok mm) :
    mm.port = v ∧ ∃ n, v = .int n ∧ 1 ≤ n := by
  rw [AddrMsg.make, except_bind_ok_iff] at h
  obtain ⟨a, ha, hb⟩ := h
  obtain ⟨⟩ := a
  rw [check_int_ok_iff] at ha
  simp [Pure.pure, Except.pure] at hb
  exact ⟨by rw [← hb], ha⟩

theorem statusMsg_make_ok_chars (b e0 s : PyVal) (mm : StatusMsg)
    (h : StatusMsg.make b e0 s = .ok mm) :
    mm.base_angle.isinstance .float = true ∧
    mm.elev_angle.isinstance .float = true ∧
    ∃ n, mm.shots = .int n ∧ 0 ≤ n := by
  cases b <;> cases e0 <;>
    simp [StatusMsg.make, pyFloatOfInt, PyVal.isinstance, Bind.bind,
      Except.bind, Pure.pure, Except.pure] at h <;>
    (obtain ⟨a, ha, hmm⟩ := ((except_bind_ok_iff _ _ _).mp h)
     obtain ⟨⟩ := a
     rw [check_int_ok_iff] at ha
     obtain ⟨n, rfl, hn⟩ := ha
     simp [Pure.pure, Except.pure] at hmm
     subst hmm
     exact ⟨rfl, rfl, n, rfl, hn⟩)

theorem from_dict_spec (t : MsgType) (d : PyDict) :
    t.from_dict d
      = (do
          check_msg_type d t.tag
          (specExtract d t.fields) >>= t.build) := by
  cases t with
  | move =>
    rw [show MsgType.from_dict .move d
        = (MoveMsg.from_dict d).map Msg.move from rfl, MoveMsg.from_dict]
    cases hc : check_msg_type d "move" <;>
      cases h1 : get_msg_data d "base_angle" .float <;>
      cases h2 : get_msg_data d "elev_angle" .float <;>
        simp [MsgType.tag, MsgType.fields, MsgType.build, specExtract,
          hc, h1, h2, Bind.bind, Except.bind, Except.map, Pure.pure,
          Except.pure]
  | shoot =>
    rw [show MsgType.from_dict .shoot d
        = (ShootMsg.from_dict d).map Msg.shoot from rfl,
      ShootMsg.from_dict]
    cases hc : check_msg_type d "shoot" <;>
      cases h1 : get_msg_data d "times" .int <;>
        simp [MsgType.tag, MsgType.fields, MsgType.build, specExtract,
          hc, h1, Bind.bind, Except.bind, Except.map, Pure.pure,
          Except.pure]
  | ack =>
    rw [show MsgType.from_dict .ack d
        = (AckMsg.from_dict d).map Msg.ack from rfl, AckMsg.from_dict]
    cases hc : check_msg_type d "acknowledge" <;>
      simp [MsgType.tag, MsgType.fields, MsgType.build, specExtract, hc,
        Bind.bind, Except.bind, Except.map, Pure.pure, Except.pure]
  | discover =>
    rw [show MsgType.from_dict .discover d
        = (DiscoverMsg.from_dict d).map Msg.discover from rfl,
      DiscoverMsg.from_dict]
    cases hc : check_msg_type d "discover" <;>
      simp [MsgType.tag, MsgType.fields, MsgType.build, specExtract, hc,
        Bind.bind, Except.bind, Except.map, Pure.pure, Except.pure]
  | addr =>
    rw [show MsgType.from_dict .addr d
        = (AddrMsg.from_dict d).map Msg.addr from rfl, AddrMsg.from_dict]
    cases hc : check_msg_type d "address" <;>
      cases h1 : get_msg_data d "port" .int <;>
        simp [MsgType.tag, MsgType.fields, MsgType.build, specExtract,
          hc, h1, Bind.bind, Except.bind, Except.map, Pure.pure,
          Except.pure]
  | requestStatus =>
    rw [show MsgType.from_dict .requestStatus d
        = (RequestStatusMsg.from_dict d).map Msg.requestStatus from rfl,
      RequestStatusMsg.from_dict]
    cases hc : check_msg_type d "statusrequest" <;>
      simp [MsgType.tag, MsgType.fields, MsgType.build, specExtract, hc,
        Bind.bind, Except.bind, Except.map, Pure.pure, Except.pure]
  | status =>
    rw [show MsgType.from_dict .status d
        = (StatusMsg.from_dict d).map Msg.status from rfl,
      StatusMsg.from_dict]
    cases hc : check_msg_type d "status" <;>
      cases h1 : get_msg_data d "base_angle" .float <;>
      cases h2 : get_msg_data d "elevation_angle" .float <;>
      cases h3 : get_msg_data d "shots" .int <;>
        simp [MsgType.tag, MsgType.fields, MsgType.build, specExtract,
          hc, h1, h2, h3, Bind.bind, Except.bind, Except.map, Pure.pure,
          Except.pure]
  | reset =>
    rw [show MsgType.from_dict .reset d
        = (ResetMsg.from_dict d).map Msg.reset from rfl,
      ResetMsg.from_dict]
    cases hc : check_msg_type d "reset" <;>
      simp [MsgType.tag, MsgType.fields, MsgType.build, specExtract, hc,
        Bind.bind, Except.bind, Except.map, Pure.pure, Except.pure]

theorem specExtract_error_shape (d : PyDict)
    (fs : List (String × DType)) (e : PyError)
    (h : specExtract d fs = .error e) :
    e.isMsgDataError = true := by
  induction fs with
  | nil => simp [specExtract] at h
  | cons hd tl ih =>
    obtain ⟨name, dt⟩ := hd
    rw [specExtract, except_bind_error_iff] at h
    rcases h with h | ⟨v, _, h2⟩
    · rw [get_msg_data_error_iff] at h
      rcases h with ⟨_, rfl⟩ | ⟨v, _, _, rfl⟩ <;> rfl
    · rw [except_bind_error_iff] at h2
      rcases h2 with h2 | ⟨vs, _, h3⟩
      · exact ih h2
      · exact absurd h3 (except_pure_ne_error _ _)

theorem specExtract_error_chars (d : PyDict)
    (fs : List (String × DType)) (s : String)
    (h : specExtract d fs = .error (.msgDataError s)) :
    ∃ name dt, (name, dt) ∈ fs ∧
      ((dictGet d name = none ∧
         s = "Missing [" ++ name ++ "] in msg") ∨
       (∃ v, dictGet d name = some v ∧ v.isinstance dt = false ∧
         s = "[" ++ name ++ "] must be type [" ++ dt.name ++ "], got ["
           ++ v.typeName ++ "]")) := by
  induction fs with
  | nil => simp [specExtract] at h
  | cons hd tl ih =>
    obtain ⟨name, dt⟩ := hd
    rw [specExtract, except_bind_error_iff] at h
    rcases h with h | ⟨v, _, h2⟩
    · rw [get_msg_data_error_iff] at h
      rcases h with ⟨hnone, hmsg⟩ | ⟨v, hsome, hinst, hmsg⟩
      · refine ⟨name, dt, by simp, Or.inl ⟨hnone, ?_⟩⟩
        injection hmsg
      · refine ⟨name, dt, by simp, Or.inr ⟨v, hsome, hinst, ?_⟩⟩
        injection hmsg
    · rw [except_bind_error_iff] at h2
      rcases h2 with h2 | ⟨vs, _, h3⟩
      · obtain ⟨name2, dt2, hmem, hrest⟩ := ih h2
        exact ⟨name2, dt2, List.mem_cons_of_mem _ hmem, hrest⟩
      · exact absurd h3 (except_pure_ne_error _ _)

theorem specExtract_fails (d : PyDict) (fs : List (String × DType))
    (h : ∃ name dt, (name, dt) ∈ fs ∧
      (dictGet d name = none ∨
       ∃ v, dictGet d name = some v ∧ v.isinstance dt = false)) :
    ∃ e, specExtract d fs = .error e ∧ e.isMsgDataError = true := by
  induction fs with
  | nil =>
    obtain ⟨name, dt, hmem, _⟩ := h
    simp at hmem
  | cons hd tl ih =>
    obtain ⟨name, dt, hmem, hbad⟩ := h
    obtain ⟨name0, dt0⟩ := hd
    rcases List.mem_cons.mp hmem with heq | hmem2
    · obtain ⟨rfl, rfl⟩ := Prod.mk.injEq .. ▸ heq
      rcases hbad with hnone | ⟨v, hsome, hinst⟩
      · refine ⟨.msgDataError ("Missing [" ++ name ++ "] in msg"),
          ?_, rfl⟩
        rw [specExtract, except_bind_error_iff]
        exact Or.inl ((get_msg_data_error_iff ..).mpr
          (Or.inl ⟨hnone, rfl⟩))
      · refine ⟨.msgDataError ("[" ++ name ++ "] must be type ["
            ++ dt.name ++ "], got [" ++ v.typeName ++ "]"), ?_, rfl⟩
        rw [specExtract, except_bind_error_iff]
        exact Or.inl ((get_msg_data_error_iff ..).mpr
          (Or.inr ⟨v, hsome, hinst, rfl⟩))
    · cases hget : get_msg_data d name0 dt0 with
      | error e =>
        have he : e.isMsgDataError = true := by
          rcases (get_msg_data_error_iff ..).mp hget with
            ⟨_, rfl⟩ | ⟨v, _, _, rfl⟩ <;> rfl
        refine ⟨e, ?_, he⟩
        rw [specExtract, except_bind_error_iff]
        exact Or.inl hget
      | ok v =>
        obtain ⟨e, he, hshape⟩ := ih ⟨name, dt, hmem2, hbad⟩
        refine ⟨e, ?_, hshape⟩
        rw [specExtract, except_bind_error_iff]
        refine Or.inr ⟨v, hget, ?_⟩
        rw [except_bind_error_iff]
        exact Or.inl he

theorem build_error_shape (t : MsgType) (vs : List PyVal) (e : PyError)
    (h : t.build vs = .error e) :
    e.isMsgTypeError = false ∧ e.isMsgDataError = false := by
  cases t <;>
    rcases vs with _ | ⟨a, _ | ⟨b, _ | ⟨c, _ | tl⟩⟩⟩ <;>
    simp only [MsgType.build] at h <;>
    first
      | (cases h; exact ⟨rfl, rfl⟩)
      | (exact absurd h (except_pure_ne_error _ _))
      | (rw [except_map_error_iff] at h
         first
           | exact shootMsg_make_error_shape _ _ h
           | exact addrMsg_make_error_shape _ _ h
           | exact statusMsg_make_error_shape _ _ _ _ h)

theorem doubleShift_small (a : ℕ) (h : a < 2 ^ 53) :
    doubleShift a a = 0 := by
  cases a with
  | zero => rfl
  | succ k =>
    rw [doubleShift]
    exact if_pos h

theorem doubleShift_one (a : ℕ) (h1 : 2 ^ 53 ≤ a) (h2 : a < 2 ^ 54) :
    doubleShift a a = 1 := by
  obtain ⟨k, rfl⟩ : ∃ k, a = k + 1 := ⟨a - 1, by omega⟩
  rw [doubleShift, if_neg (by omega)]
  obtain ⟨j, rfl⟩ : ∃ j, k = j + 1 := ⟨k - 1, by omega⟩
  rw [doubleShift, if_pos (by omega)]

theorem floatOfInt_exact (n : ℤ) (h : n.natAbs < 2 ^ 53) :
    floatOfInt n = (n : ℚ) := by
  simp only [floatOfInt, doubleShift_small n.natAbs h, pow_zero,
    Nat.div_one, Nat.mod_one, Nat.mul_zero, Nat.cast_one, mul_one]
  rw [if_pos (by omega)]
  rw [← Int.cast_natCast, ← Int.cast_mul, Int.sign_mul_natAbs]

theorem floatOfInt_rounds :
    floatOfInt (2 ^ 53 + 1) = ((2 ^ 53 : ℤ) : ℚ) := by
  have hlit : (2 ^ 53 + 1 : ℤ) = 9007199254740993 := by norm_num
  have ha : (9007199254740993 : ℤ).natAbs = 9007199254740993 := rfl
  have hsign : (9007199254740993 : ℤ).sign = 1 := rfl
  have hs : doubleShift 9007199254740993 9007199254740993 = 1 :=
    doubleShift_one _ (by norm_num) (by norm_num)
  rw [hlit]
  simp only [floatOfInt, ha, hsign, hs]
  norm_num

theorem statusMsg_make_int_angles (n m sh : ℤ) (hsh : 0 ≤ sh) :
    StatusMsg.make (.int n) (.int m) (.int sh)
      = .ok ⟨.float (floatOfInt n), .float (floatOfInt m), .int sh⟩ := by
  simp [StatusMsg.make, check_int, pyFloatOfInt, PyVal.isinstance,
    Bind.bind, Except.bind, Pure.pure, Except.pure]
  rw [if_neg (by omega)]

theorem statusMsg_make_float_angles (q1 q2 : ℚ) (sh : ℤ) (hsh : 0 ≤ sh) :
    StatusMsg.make (.float q1) (.float q2) (.int sh)
      = .ok ⟨.float q1, .float q2, .int sh⟩ := by
  simp [StatusMsg.make, check_int, pyFloatOfInt, PyVal.isinstance,
    Bind.bind, Except.bind, Pure.pure, Except.pure]
  rw [if_neg (by omega)]

theorem from_dict_field_fails (t : MsgType) (d : PyDict)
    (htag : dictGet d "type" = some (.str t.tag))
    (hbad : ∃ name dt, (name, dt) ∈ t.fields ∧
      (dictGet d name = none ∨
       ∃ v, dictGet d name = some v ∧ v.isinstance dt = false)) :
    ∃ s, t.from_dict d = .error (.msgDataError s) := by
  obtain ⟨e2, hx, hshape⟩ := specExtract_fails d t.fields hbad
  obtain ⟨s, rfl⟩ := isMsgDataError_exists e2 hshape
  refine ⟨s, ?_⟩
  rw [from_dict_spec, except_bind_error_iff]
  refine Or.inr ⟨(), (check_msg_type_ok_iff d t.tag).mpr htag, ?_⟩
  rw [except_bind_error_iff]
  exact Or.inl hx

/-! ## Claim theorems -/

/-- C1: for every message variant and every value of it whose fields
satisfy the documented constraints, decoding the encoding of the value,
directed at its own variant, returns the value unchanged (including
`Status`, whose wire key for the elevation angle is
`"elevation_angle"`). -/
theorem claim_C1_roundtrip (m : Msg) (h : m.wellFormed = true) :
    (encode (.msg m) >>= fun bs => decode bs m.type) = .ok m := by
  cases m with
  | move mm =>
    obtain ⟨b, e⟩ := mm
    cases b <;> cases e <;>
      simp [Msg.wellFormed, PyVal.isinstance] at h
    rfl
  | shoot mm =>
    obtain ⟨t⟩ := mm
    cases t <;> simp [Msg.wellFormed] at h
    simp [encode, packb, unpackb, decode, Msg.to_dict, Msg.type,
      ShootMsg.to_dict, MsgType.from_dict, ShootMsg.from_dict,
      check_msg_type, get_msg_data, dictGet, ShootMsg.make, check_int,
      PyVal.isinstance, Bind.bind, Except.bind, Functor.map, Except.map,
      Pure.pure, Except.pure, List.find?]
    rw [if_neg (by omega)]
  | ack mm => obtain ⟨⟩ := mm; rfl
  | discover mm => obtain ⟨⟩ := mm; rfl
  | addr mm =>
    obtain ⟨p⟩ := mm
    cases p <;> simp [Msg.wellFormed] at h
    simp [encode, packb, unpackb, decode, Msg.to_dict, Msg.type,
      AddrMsg.to_dict, MsgType.from_dict, AddrMsg.from_dict,
      check_msg_type, get_msg_data, dictGet, AddrMsg.make, check_int,
      PyVal.isinstance, Bind.bind, Except.bind, Functor.map, Except.map,
      Pure.pure, Except.pure, List.find?]
    rw [if_neg (by omega)]
  | requestStatus mm => obtain ⟨⟩ := mm; rfl
  | status mm =>
    obtain ⟨b, e, sh⟩ := mm
    cases b <;> cases e <;> cases sh <;>
      simp [Msg.wellFormed, PyVal.isinstance] at h
    rename_i q1 q2 n
    simp [encode, packb, unpackb, decode, Msg.to_dict, Msg.type,
      StatusMsg.to_dict, MsgType.from_dict, StatusMsg.from_dict,
      check_msg_type, get_msg_data, dictGet, StatusMsg.make, check_int,
      PyVal.isinstance, Bind.bind, Except.bind, Functor.map, Except.map,
      Pure.pure, Except.pure, List.find?]
    rw [if_neg (by omega)]
  | reset mm => obtain ⟨⟩ := mm; rfl

/-- Witness for C1 at a concrete `Status` value. -/
theorem claim_C1_roundtrip_witness :
    Msg.wellFormed (.status ⟨.float 1, .float 2, .int 5⟩) = true ∧
      (encode (.msg (.status ⟨.float 1, .float 2, .int 5⟩)) >>= fun bs =>
          decode bs (Msg.type (.status ⟨.float 1, .float 2, .int 5⟩))) =
        .ok (.status ⟨.float 1, .float 2, .int 5⟩) :=
  ⟨rfl, claim_C1_roundtrip _ rfl⟩

/-- C2: decoding bytes that encode a value of variant `A`, directed at a
different variant `B`, always fails with `MsgTypeError` (and so never
returns a `B` instance). -/
theorem claim_C2_tag_mismatch (m : Msg) (t : MsgType) (h : m.type ≠ t) :
    ∃ s, (encode (.msg m) >>= fun bs => decode bs t)
      = .error (.msgTypeError s) := by
  cases m <;> cases t <;> first
    | exact absurd rfl h
    | exact ⟨_, rfl⟩

/-- Witness for C2: an encoded `AckMsg` decoded as `MoveMsg`. -/
theorem claim_C2_tag_mismatch_witness :
    Msg.type (.ack ⟨⟩) ≠ MsgType.move ∧
      ∃ s, (encode (.msg (.ack ⟨⟩)) >>= fun bs => decode bs MsgType.move)
        = .error (.msgTypeError s) :=
  ⟨by decide, claim_C2_tag_mismatch _ _ (by decide)⟩

/-- C3: the validating constructors reject every below-bound integer
with a `ValueError` at construction time — any `ShootMsg(times < 0)`,
`AddrMsg(port < 1)` or `StatusMsg(..., shots < 0)` fails before
`encode` is ever involved (construction never calls the codec) — while
every value at or above the bound is accepted. -/
theorem claim_C3_constructor_validation (nb pb sb n p sh : ℤ)
    (hnb : nb < 0) (hpb : pb < 1) (hsb : sb < 0)
    (hn : 0 ≤ n) (hp : 1 ≤ p) (hs : 0 ≤ sh) :
    (∃ e, ShootMsg.make (.int nb) = .error e ∧ e.isValueError = true) ∧
    (∃ e, AddrMsg.make (.int pb) = .error e ∧ e.isValueError = true) ∧
    (∀ q1 q2 : ℚ, ∃ e,
      StatusMsg.make (.float q1) (.float q2) (.int sb) = .error e ∧
        e.isValueError = true) ∧
    ShootMsg.make (.int n) = .ok ⟨.int n⟩ ∧
    AddrMsg.make (.int p) = .ok ⟨.int p⟩ ∧
    (∀ q1 q2 : ℚ, StatusMsg.make (.float q1) (.float q2) (.int sh)
      = .ok ⟨.float q1, .float q2, .int sh⟩) := by
  refine ⟨⟨.valueError "times must be greater than 0", ?_, rfl⟩,
    ⟨.valueError "port must be greater than 1", ?_, rfl⟩,
    fun q1 q2 => ⟨.valueError "shots must be greater than 0", ?_, rfl⟩,
    ?_, ?_, fun q1 q2 => statusMsg_make_float_angles q1 q2 sh hs⟩
  · simp [ShootMsg.make, check_int, Bind.bind, Except.bind, Pure.pure,
      Except.pure]
    rw [if_pos hnb]
    rfl
  · simp [AddrMsg.make, check_int, Bind.bind, Except.bind, Pure.pure,
      Except.pure]
    rw [if_pos hpb]
    rfl
  · simp [StatusMsg.make, check_int, PyVal.isinstance, Bind.bind,
      Except.bind, Pure.pure, Except.pure]
    rw [if_pos hsb]
    rfl
  · simp [ShootMsg.make, check_int, Bind.bind, Except.bind, Pure.pure,
      Except.pure]
    rw [if_neg (by omega)]
  · simp [AddrMsg.make, check_int, Bind.bind, Except.bind, Pure.pure,
      Except.pure]
    rw [if_neg (by omega)]

/-- Witness for C3 at `times = -1 / 0`, `port = 0 / 1`,
`shots = -1 / 0`. -/
theorem claim_C3_constructor_validation_witness :
    (-1 : ℤ) < 0 ∧ (0 : ℤ) < 1 ∧ (-1 : ℤ) < 0 ∧
    (0 : ℤ) ≤ 0 ∧ (1 : ℤ) ≤ 1 ∧ (0 : ℤ) ≤ 0 ∧
    ((∃ e, ShootMsg.make (.int (-1)) = .error e ∧ e.isValueError = true) ∧
     (∃ e, AddrMsg.make (.int 0) = .error e ∧ e.isValueError = true) ∧
     (∀ q1 q2 : ℚ, ∃ e,
       StatusMsg.make (.float q1) (.float q2) (.int (-1)) = .error e ∧
         e.isValueError = true) ∧
     ShootMsg.make (.int 0) = .ok ⟨.int 0⟩ ∧
     AddrMsg.make (.int 1) = .ok ⟨.int 1⟩ ∧
     (∀ q1 q2 : ℚ, StatusMsg.make (.float q1) (.float q2) (.int 0)
       = .ok ⟨.float q1, .float q2, .int 0⟩)) :=
  ⟨by decide, by decide, by decide, le_refl 0, le_refl 1, le_refl 0,
    claim_C3_constructor_validation (-1) 0 (-1) 0 1 0 (by decide)
      (by decide) (by decide) (le_refl 0) (le_refl 1) (le_refl 0)⟩

/-- C4: once the request has been written, the reply-handling phase of
`move` and `shoot` is a total function of the reply bytes (the bare
`except:` catches every exception `decode` can raise): whenever decoding
the reply as `AckMsg` fails — malformed bytes, a non-dictionary payload,
a wrong tag — the operation merely emits the warning and returns
normally. -/
theorem claim_C4_ack_soft_failure (resp : Wire) (e : PyError)
    (h : decode resp MsgType.ack = .error e) :
    move_ack_phase resp
      = ["Ack message not recieved after sending move command"] ∧
    shoot_ack_phase resp
      = ["Ack message not recieved after sending shoot command"] := by
  constructor
  · simp [move_ack_phase, h]
  · simp [shoot_ack_phase, h]

/-- Witness for C4: garbage bytes that do not unpack at all. -/
theorem claim_C4_ack_soft_failure_witness :
    decode Wire.malformed MsgType.ack = .error .unpackError ∧
    (move_ack_phase .malformed
       = ["Ack message not recieved after sending move command"] ∧
     shoot_ack_phase .malformed
       = ["Ack message not recieved after sending shoot command"]) :=
  ⟨rfl, claim_C4_ack_soft_failure .malformed .unpackError rfl⟩

/-- C5 counterexample: the claim that "an integer is never accepted where
a float is required, except Status angles; Move rejects integer angles
and Status accepts integer angles wherever supplied" is false on the
code: `MoveMsg`, having no `__post_init__`, accepts integer angles at
construction (and encodes them), while `StatusMsg.from_dict` demands
strict floats and rejects an integer `base_angle` with a
`MsgDataError`. -/
theorem claim_C5_counterexample :
    MoveMsg.make (.int 90) (.int 45)
      = { base_angle := .int 90, elev_angle := .int 45 } ∧
    encode (.msg (.move (MoveMsg.make (.int 90) (.int 45))))
      = .ok (packb (.dict [("type", .str "move"), ("base_angle", .int 90),
          ("elev_angle", .int 45)])) ∧
    StatusMsg.from_dict
        [("type", .str "status"), ("base_angle", .int 90),
         ("elevation_angle", .float 0), ("shots", .int 0)]
      = .error (.msgDataError
          "[base_angle] must be type [float], got [int]") :=
  ⟨rfl, rfl, rfl⟩

/-- C5 amended: in `from_dict` decoding an integer is never accepted
where a float is required — `Move` rejects an integer in either of its
angle fields, and `Status` rejects an integer in either `base_angle` or
the wire field `elevation_angle`, all with a `MsgDataError`; at
construction time `Status` coerces integer angles to floats (exactly,
on the double-representable range), while `Move` performs no type
validation at all and accepts integer angles unchanged. -/
theorem claim_C5_amended (d : PyDict) (n m sh : ℤ) (v w : PyVal)
    (hn : n.natAbs < 2 ^ 53) (hm : m.natAbs < 2 ^ 53) (hsh : 0 ≤ sh) :
    (dictGet d "type" = some (.str "move") →
      ((∃ nb : ℤ, dictGet d "base_angle" = some (.int nb)) ∨
       (∃ me : ℤ, dictGet d "elev_angle" = some (.int me))) →
      ∃ s, MoveMsg.from_dict d = .error (.msgDataError s)) ∧
    (dictGet d "type" = some (.str "status") →
      ((∃ nb : ℤ, dictGet d "base_angle" = some (.int nb)) ∨
       (∃ me : ℤ, dictGet d "elevation_angle" = some (.int me))) →
      ∃ s, StatusMsg.from_dict d = .error (.msgDataError s)) ∧
    StatusMsg.make (.int n) (.int m) (.int sh)
      = .ok ⟨.float (n : ℚ), .float (m : ℚ), .int sh⟩ ∧
    MoveMsg.make v w = { base_angle := v, elev_angle := w } := by
  refine ⟨?_, ?_, ?_, rfl⟩
  · intro htag hbad
    have hb2 : ∃ name dt, (name, dt) ∈ MsgType.fields .move ∧
        (dictGet d name = none ∨
         ∃ u, dictGet d name = some u ∧ u.isinstance dt = false) := by
      rcases hbad with ⟨nb, hnb⟩ | ⟨me, hme⟩
      · exact ⟨"base_angle", .float, by simp [MsgType.fields],
          Or.inr ⟨.int nb, hnb, rfl⟩⟩
      · exact ⟨"elev_angle", .float, by simp [MsgType.fields],
          Or.inr ⟨.int me, hme, rfl⟩⟩
    obtain ⟨s, hs⟩ := from_dict_field_fails .move d htag hb2
    rw [show MsgType.from_dict .move d
        = (MoveMsg.from_dict d).map Msg.move from rfl,
      except_map_error_iff] at hs
    exact ⟨s, hs⟩
  · intro htag hbad
    have hb2 : ∃ name dt, (name, dt) ∈ MsgType.fields .status ∧
        (dictGet d name = none ∨
         ∃ u, dictGet d name = some u ∧ u.isinstance dt = false) := by
      rcases hbad with ⟨nb, hnb⟩ | ⟨me, hme⟩
      · exact ⟨"base_angle", .float, by simp [MsgType.fields],
          Or.inr ⟨.int nb, hnb, rfl⟩⟩
      · exact ⟨"elevation_angle", .float, by simp [MsgType.fields],
          Or.inr ⟨.int me, hme, rfl⟩⟩
    obtain ⟨s, hs⟩ := from_dict_field_fails .status d htag hb2
    rw [show MsgType.from_dict .status d
        = (StatusMsg.from_dict d).map Msg.status from rfl,
      except_map_error_iff] at hs
    exact ⟨s, hs⟩
  · rw [statusMsg_make_int_angles n m sh hsh, floatOfInt_exact n hn,
      floatOfInt_exact m hm]

/-- Witness for C5 amended, at a status map whose only integer angle is
the `elevation_angle` field. -/
theorem claim_C5_amended_witness :
    (90 : ℤ).natAbs < 2 ^ 53 ∧ (45 : ℤ).natAbs < 2 ^ 53 ∧ (0 : ℤ) ≤ 0 ∧
    ((dictGet [("type", .str "status"), ("base_angle", .float 0),
         ("elevation_angle", .int 45), ("shots", .int 0)] "type"
        = some (.str "move") →
       ((∃ nb : ℤ, dictGet [("type", .str "status"),
            ("base_angle", .float 0), ("elevation_angle", .int 45),
            ("shots", .int 0)] "base_angle" = some (.int nb)) ∨
        (∃ me : ℤ, dictGet [("type", .str "status"),
            ("base_angle", .float 0), ("elevation_angle", .int 45),
            ("shots", .int 0)] "elev_angle" = some (.int me))) →
       ∃ s, MoveMsg.from_dict [("type", .str "status"),
           ("base_angle", .float 0), ("elevation_angle", .int 45),
           ("shots", .int 0)] = .error (.msgDataError s)) ∧
     (dictGet [("type", .str "status"), ("base_angle", .float 0),
         ("elevation_angle", .int 45), ("shots", .int 0)] "type"
        = some (.str "status") →
       ((∃ nb : ℤ, dictGet [("type", .str "status"),
            ("base_angle", .float 0), ("elevation_angle", .int 45),
            ("shots", .int 0)] "base_angle" = some (.int nb)) ∨
        (∃ me : ℤ, dictGet [("type", .str "status"),
            ("base_angle", .float 0), ("elevation_angle", .int 45),
            ("shots", .int 0)] "elevation_angle" = some (.int me))) →
       ∃ s, StatusMsg.from_dict [("type", .str "status"),
           ("base_angle", .float 0), ("elevation_angle", .int 45),
           ("shots", .int 0)] = .error (.msgDataError s)) ∧
     StatusMsg.make (.int 90) (.int 45) (.int 0)
       = .ok ⟨.float ((90 : ℤ) : ℚ), .float ((45 : ℤ) : ℚ), .int 0⟩ ∧
     MoveMsg.make (.int 90) (.int 45)
       = { base_angle := .int 90, elev_angle := .int 45 }) :=
  ⟨by norm_num, by norm_num, le_refl 0,
    claim_C5_amended [("type", .str "status"), ("base_angle", .float 0),
      ("elevation_angle", .int 45), ("shots", .int 0)] 90 45 0
      (.int 90) (.int 45) (by norm_num) (by norm_num) (le_refl 0)⟩

/-- C6 counterexample: Python `float` is an IEEE-754 double, so integer
angles are not always coerced without precision loss: constructing
`Status` with `base_angle = 2 ** 53 + 1` succeeds but stores the float
value `2 ** 53` (`float(2 ** 53 + 1) = 9007199254740992.0`), not the
supplied integer's value. -/
theorem claim_C6_counterexample :
    StatusMsg.make (.int (2 ^ 53 + 1)) (.int 0) (.int 0)
      = .ok ⟨.float ((2 ^ 53 : ℤ) : ℚ), .float ((0 : ℤ) : ℚ), .int 0⟩ ∧
    ((2 ^ 53 : ℤ) : ℚ) ≠ ((2 ^ 53 + 1 : ℤ) : ℚ) := by
  constructor
  · rw [statusMsg_make_int_angles _ _ _ (le_refl 0), floatOfInt_rounds,
      floatOfInt_exact 0 (by norm_num)]
  · norm_num

/-- C6 amended: for integer-valued angles in the double-exact range
(magnitude below `2 ** 53`), constructing `Status` yields float-valued
fields carrying exactly the same number, and the instance encodes to
exactly the same bytes as the instance built from the equivalent float
values; integers of larger magnitude are rounded to the nearest
representable double by the coercion. -/
theorem claim_C6_amended (n m sh : ℤ) (hn : n.natAbs < 2 ^ 53)
    (hm : m.natAbs < 2 ^ 53) (hsh : 0 ≤ sh) :
    StatusMsg.make (.int n) (.int m) (.int sh)
      = .ok ⟨.float (n : ℚ), .float (m : ℚ), .int sh⟩ ∧
    (StatusMsg.make (.int n) (.int m) (.int sh)).map
        (fun st => encode (.msg (.status st)))
      = (StatusMsg.make (.float (n : ℚ)) (.float (m : ℚ))
          (.int sh)).map (fun st => encode (.msg (.status st))) := by
  have h1 : StatusMsg.make (.int n) (.int m) (.int sh)
      = .ok ⟨.float (n : ℚ), .float (m : ℚ), .int sh⟩ := by
    rw [statusMsg_make_int_angles n m sh hsh, floatOfInt_exact n hn,
      floatOfInt_exact m hm]
  exact ⟨h1, by rw [h1, statusMsg_make_float_angles _ _ _ hsh]⟩

/-- Witness for C6 amended at `base_angle = 90`, `elev_angle = 45`,
`shots = 3`. -/
theorem claim_C6_amended_witness :
    (90 : ℤ).natAbs < 2 ^ 53 ∧ (45 : ℤ).natAbs < 2 ^ 53 ∧ (0 : ℤ) ≤ 3 ∧
    (StatusMsg.make (.int 90) (.int 45) (.int 3)
       = .ok ⟨.float ((90 : ℤ) : ℚ), .float ((45 : ℤ) : ℚ), .int 3⟩ ∧
     (StatusMsg.make (.int 90) (.int 45) (.int 3)).map
         (fun st => encode (.msg (.status st)))
       = (StatusMsg.make (.float ((90 : ℤ) : ℚ)) (.float ((45 : ℤ) : ℚ))
           (.int 3)).map (fun st => encode (.msg (.status st)))) :=
  ⟨by norm_num, by norm_num, by norm_num,
    claim_C6_amended 90 45 3 (by norm_num) (by norm_num) (by norm_num)⟩

theorem specExtract_ok_types (d : PyDict) (fs : List (String × DType))
    (vs : List PyVal) (h : specExtract d fs = .ok vs) :
    List.Forall₂ (fun v (p : String × DType) => v.isinstance p.2 = true)
      vs fs := by
  induction fs generalizing vs with
  | nil =>
    simp [specExtract] at h
    subst h
    exact .nil
  | cons hd tl ih =>
    obtain ⟨name, dt⟩ := hd
    rw [specExtract, except_bind_ok_iff] at h
    obtain ⟨v, hv, h2⟩ := h
    rw [except_bind_ok_iff] at h2
    obtain ⟨vs2, hvs2, h3⟩ := h2
    simp [Pure.pure, Except.pure] at h3
    subst h3
    exact .cons ((get_msg_data_ok_iff ..).mp hv).2 (ih vs2 hvs2)

theorem from_dict_wellFormed (t : MsgType) (d : PyDict) (m : Msg)
    (h : t.from_dict d = .ok m) :
    m.wellFormed = true := by
  rw [from_dict_spec, except_bind_ok_iff] at h
  obtain ⟨a, _, hb⟩ := h
  rw [except_bind_ok_iff] at hb
  obtain ⟨vs, hvs, hbuild⟩ := hb
  have htypes := specExtract_ok_types d t.fields vs hvs
  cases t with
  | move =>
    cases htypes with
    | cons h1 htl =>
      cases htl with
      | cons h2 htl2 =>
        cases htl2
        simp [MsgType.build, Pure.pure, Except.pure] at hbuild
        subst hbuild
        simp [Msg.wellFormed, MoveMsg.make, h1, h2]
  | shoot =>
    cases htypes with
    | cons h1 htl =>
      cases htl
      simp only [MsgType.build, except_map_ok_iff] at hbuild
      obtain ⟨mm, hmm, rfl⟩ := hbuild
      obtain ⟨_, n, rfl, hn⟩ := shootMsg_make_ok_chars _ _ hmm
      rename_i ht
      simp [Msg.wellFormed, ht, hn]
  | ack =>
    cases htypes
    simp [MsgType.build, Pure.pure, Except.pure] at hbuild
    subst hbuild
    rfl
  | discover =>
    cases htypes
    simp [MsgType.build, Pure.pure, Except.pure] at hbuild
    subst hbuild
    rfl
  | addr =>
    cases htypes with
    | cons h1 htl =>
      cases htl
      simp only [MsgType.build, except_map_ok_iff] at hbuild
      obtain ⟨mm, hmm, rfl⟩ := hbuild
      obtain ⟨_, n, rfl, hn⟩ := addrMsg_make_ok_chars _ _ hmm
      rename_i ht
      simp [Msg.wellFormed, ht, hn]
  | requestStatus =>
    cases htypes
    simp [MsgType.build, Pure.pure, Except.pure] at hbuild
    subst hbuild
    rfl
  | status =>
    cases htypes with
    | cons h1 htl =>
      cases htl with
      | cons h2 htl2 =>
        cases htl2 with
        | cons h3 htl3 =>
          cases htl3
          simp only [MsgType.build, except_map_ok_iff] at hbuild
          obtain ⟨mm, hmm, rfl⟩ := hbuild
          obtain ⟨hbf, hef, n, hsn, hn⟩ :=
            statusMsg_make_ok_chars _ _ _ _ hmm
          simp [Msg.wellFormed, hbf, hef, hsn, hn]
  | reset =>
    cases htypes
    simp [MsgType.build, Pure.pure, Except.pure] at hbuild
    subst hbuild
    rfl

/-- C7: for every variant, `from_dict` validates the `"type"` tag first —
failing with `MsgTypeError` on a missing or mismatched tag no matter
what the remaining fields contain — and only then extracts the required
fields: with a correct tag it never raises `MsgTypeError`, every
`MsgDataError` it raises names a missing or mis-typed required field in
its message, and a missing or mis-typed required field (under a correct
tag) guarantees a `MsgDataError`. -/
theorem claim_C7_from_dict_validation (t : MsgType) (d : PyDict) :
    (dictGet d "type" ≠ some (.str t.tag) →
      ∃ s, t.from_dict d = .error (.msgTypeError s)) ∧
    (dictGet d "type" = some (.str t.tag) →
      ∀ s, t.from_dict d ≠ .error (.msgTypeError s)) ∧
    (∀ s, t.from_dict d = .error (.msgDataError s) →
      ∃ name dt, (name, dt) ∈ t.fields ∧
        ((dictGet d name = none ∧
           s = "Missing [" ++ name ++ "] in msg") ∨
         (∃ v, dictGet d name = some v ∧ v.isinstance dt = false ∧
           s = "[" ++ name ++ "] must be type [" ++ dt.name ++ "], got ["
             ++ v.typeName ++ "]"))) ∧
    (dictGet d "type" = some (.str t.tag) →
      (∃ name dt, (name, dt) ∈ t.fields ∧
        (dictGet d name = none ∨
         ∃ v, dictGet d name = some v ∧ v.isinstance dt = false)) →
      ∃ s, t.from_dict d = .error (.msgDataError s)) := by
  refine ⟨?_, ?_, ?_, ?_⟩
  · intro h
    obtain ⟨s, hs⟩ := check_msg_type_fails d t.tag h
    refine ⟨s, ?_⟩
    rw [from_dict_spec, except_bind_error_iff]
    exact Or.inl hs
  · intro htag s hcontra
    rw [from_dict_spec, except_bind_error_iff] at hcontra
    rcases hcontra with hc | ⟨a, _, hb⟩
    · have hok := (check_msg_type_ok_iff d t.tag).mpr htag
      rw [hok] at hc
      simp at hc
    · rw [except_bind_error_iff] at hb
      rcases hb with hx | ⟨vs, _, hbuild⟩
      · have := specExtract_error_shape d t.fields _ hx
        simp [PyError.isMsgDataError] at this
      · have := build_error_shape t vs _ hbuild
        simp [PyError.isMsgTypeError] at this
  · intro s hs
    rw [from_dict_spec, except_bind_error_iff] at hs
    rcases hs with hc | ⟨a, _, hb⟩
    · have := check_msg_type_error_shape d t.tag _ hc
      simp [PyError.isMsgTypeError] at this
    · rw [except_bind_error_iff] at hb
      rcases hb with hx | ⟨vs, _, hbuild⟩
      · exact specExtract_error_chars d t.fields s hx
      · have := build_error_shape t vs _ hbuild
        simp [PyError.isMsgDataError] at this
  · intro htag hbad
    obtain ⟨e2, hx, hshape⟩ := specExtract_fails d t.fields hbad
    obtain ⟨s, rfl⟩ := isMsgDataError_exists e2 hshape
    refine ⟨s, ?_⟩
    rw [from_dict_spec, except_bind_error_iff]
    refine Or.inr ⟨(), (check_msg_type_ok_iff d t.tag).mpr htag, ?_⟩
    rw [except_bind_error_iff]
    exact Or.inl hx

/-- Witness for C7: a map with no `"type"` key, decoded as `Move`. -/
theorem claim_C7_from_dict_validation_witness :
    ∃ s, MsgType.from_dict .move [] = .error (.msgTypeError s) :=
  (claim_C7_from_dict_validation .move []).1 (by simp [dictGet])

/-- C8 counterexample: bytes that fail to deserialize at all (e.g. the
single byte `0xc1`, which is not valid msgpack) make `decode` propagate
the msgpack deserializer's own error, which is not a `DecodeError` —
refuting the claim that every byte sequence whose contents do not
deserialize into the generic map structure fails with `DecodeError`. -/
theorem claim_C8_counterexample :
    decode .malformed .ack = .error .unpackError ∧
    PyError.unpackError.isDecodeError = false :=
  ⟨rfl, rfl⟩

/-- C8 amended: `decode` raises `DecodeError` exactly for byte sequences
that deserialize to a non-map top-level value; bytes that do not
deserialize at all propagate the msgpack deserializer's own error
unchanged; and when the bytes deserialize to a map, `decode` delegates
to the expected variant's `from_dict`, propagating its result
unchanged. -/
theorem claim_C8_amended (t : MsgType) (v : PyVal) (d : PyDict)
    (hv : v.isDict = false) :
    decode .malformed t = .error .unpackError ∧
    decode (.packed v) t
      = .error (.decodeError "message did not unpack into dictionary") ∧
    decode (.packed (.dict d)) t = t.from_dict d := by
  refine ⟨rfl, ?_, rfl⟩
  cases v <;> simp [PyVal.isDict] at hv <;> rfl

/-- Witness for C8 amended at the non-map payload `7`. -/
theorem claim_C8_amended_witness :
    PyVal.isDict (.int 7) = false ∧
    (decode .malformed .ack = .error .unpackError ∧
     decode (.packed (.int 7)) .ack
       = .error (.decodeError "message did not unpack into dictionary") ∧
     decode (.packed (.dict [("type", .str "acknowledge")])) .ack
       = MsgType.from_dict .ack [("type", .str "acknowledge")]) :=
  ⟨rfl, claim_C8_amended .ack (.int 7) [("type", .str "acknowledge")] rfl⟩

/-- C9: `encode` rejects any non-`Msg` input with a `TypeError`; applied
to a `Msg` it returns exactly the msgpack serialisation of the
message's `to_dict` mapping, whose `"type"` entry carries the variant's
tag. -/
theorem claim_C9_encode (v : PyVal) (m : Msg) :
    (∃ s, encode (.val v) = .error (.typeError s)) ∧
    encode (.msg m) = .ok (packb (.dict m.to_dict)) ∧
    dictGet m.to_dict "type" = some (.str m.type.tag) := by
  refine ⟨⟨_, rfl⟩, rfl, ?_⟩
  cases m <;> rfl

/-- C10: every message returned by a successful `decode` satisfies its
variant's documented field constraints — every decode path ends in the
validating constructor — and a correctly-tagged, correctly-typed map
whose constrained field is out of range fails instead of producing an
invalid message. -/
theorem claim_C10_decoded_wellformed (bs : Wire) (t : MsgType) (m : Msg)
    (h : decode bs t = .ok m) :
    m.wellFormed = true ∧
    ShootMsg.from_dict [("type", .str "shoot"), ("times", .int (-1))]
      = .error (.valueError "times must be greater than 0") := by
  refine ⟨?_, rfl⟩
  cases bs with
  | malformed =>
    rw [show decode .malformed t = .error .unpackError from rfl] at h
    simp at h
  | packed v =>
    cases v with
    | dict d => exact from_dict_wellFormed t d m h
    | int n =>
      rw [show decode (.packed (.int n)) t = .error
        (.decodeError "message did not unpack into dictionary")
        from rfl] at h
      simp at h
    | float q =>
      rw [show decode (.packed (.float q)) t = .error
        (.decodeError "message did not unpack into dictionary")
        from rfl] at h
      simp at h
    | str s =>
      rw [show decode (.packed (.str s)) t = .error
        (.decodeError "message did not unpack into dictionary")
        from rfl] at h
      simp at h
    | nil =>
      rw [show decode (.packed .nil) t = .error
        (.decodeError "message did not unpack into dictionary")
        from rfl] at h
      simp at h
    | list xs =>
      rw [show decode (.packed (.list xs)) t = .error
        (.decodeError "message did not unpack into dictionary")
        from rfl] at h
      simp at h

/-- Witness for C10 at a successfully decoded `AckMsg`. -/
theorem claim_C10_decoded_wellformed_witness :
    decode (packb (.dict [("type", .str "acknowledge")])) .ack
      = .ok (.ack ⟨⟩) ∧
    (Msg.wellFormed (.ack ⟨⟩) = true ∧
     ShootMsg.from_dict [("type", .str "shoot"), ("times", .int (-1))]
       = .error (.valueError "times must be greater than 0")) :=
  ⟨rfl, claim_C10_decoded_wellformed
    (packb (.dict [("type", .str "acknowledge")])) .ack (.ack ⟨⟩) rfl⟩

end TurretClient
